import Mathlib

/-
Verification of the financial projection engine in `src/main.py` of the
buy-vs-rent dashboard repository.

Two functions carry all the numeric logic:
  * `calculate_mortgage_details(loan_amount, annual_rate, term_years)`
    (src/main.py lines 222-258), embedded below over `ℚ` in namespace
    `MortCalc` (the Python code works with floats; the schedule arithmetic
    is exact field arithmetic, so `ℚ` is the faithful exact model and all
    definitions are executable);
  * `calculate_buy_vs_rent(...)` (src/main.py lines 27-220), embedded over
    `ℝ` in namespace `BuyVsRent` (it uses fractional-year exponents
    `(1+rate)^(months/12)`, i.e. real powers, so the model lives in `ℝ`).

Python raises `ZeroDivisionError` on float division by zero; where the
source can divide by zero (the annuity denominator) the embedding returns
`Option`, with `none` for the crash.
-/

set_option maxRecDepth 4000

namespace MortCalc

/-- Result record of `calculate_mortgage_details` (the Python dict of
src/main.py lines 252-258): monthly payment plus the per-period arrays,
modelled as functions of the period index. -/
structure Sched where
  monthly_payment : ℚ
  balance : ℕ → ℚ
  interest_paid : ℕ → ℚ
  principal_paid : ℕ → ℚ

/-- src/main.py line 227: `monthly_rate = annual_rate / 100 / 12`. -/
def monthly_rate (annual_rate : ℚ) : ℚ := annual_rate / 100 / 12

/-- src/main.py line 228: `n_payments = term_years * 12`. -/
def n_payments (term_years : ℤ) : ℤ := term_years * 12

/-- src/main.py lines 231-233: the annuity formula
`loan_amount * (monthly_rate * (1+monthly_rate)**n_payments) /
((1+monthly_rate)**n_payments - 1)`. -/
def monthly_payment (loan_amount annual_rate : ℚ) (term_years : ℤ) : ℚ :=
  loan_amount * (monthly_rate annual_rate * (1 + monthly_rate annual_rate) ^ n_payments term_years)
    / ((1 + monthly_rate annual_rate) ^ n_payments term_years - 1)

/-- src/main.py lines 242, 245-247, 250: `balance[0] = loan_amount`;
`month_interest = balance[i-1] * monthly_rate`;
`month_principal = monthly_payment - month_interest`;
`balance[i] = balance[i-1] - month_principal`. -/
def balance (loan_amount r payment : ℚ) : ℕ → ℚ
  | 0 => loan_amount
  | i + 1 => balance loan_amount r payment i - (payment - balance loan_amount r payment i * r)

/-- src/main.py line 248: `interest_paid[i] = interest_paid[i-1] + month_interest`
with `interest_paid[0] = 0` (np.zeros). -/
def interest_paid (loan_amount r payment : ℚ) : ℕ → ℚ
  | 0 => 0
  | i + 1 => interest_paid loan_amount r payment i + balance loan_amount r payment i * r

/-- src/main.py line 249: `principal_paid[i] = principal_paid[i-1] + month_principal`
with `principal_paid[0] = 0` (np.zeros). -/
def principal_paid (loan_amount r payment : ℚ) : ℕ → ℚ
  | 0 => 0
  | i + 1 => principal_paid loan_amount r payment i + (payment - balance loan_amount r payment i * r)

/-- src/main.py lines 222-258, `calculate_mortgage_details`.  The Python
float expression for `monthly_payment` raises `ZeroDivisionError` when the
annuity denominator `(1+monthly_rate)**n_payments - 1` is `0.0` (for
example at `annual_rate = 0`); that crash is modelled as `none`.  No other
validation of any kind appears in the source. -/
def calculate_mortgage_details (loan_amount annual_rate : ℚ) (term_years : ℤ) : Option Sched :=
  if (1 + monthly_rate annual_rate) ^ n_payments term_years - 1 = 0 then none
  else some ⟨monthly_payment loan_amount annual_rate term_years,
    balance loan_amount (monthly_rate annual_rate) (monthly_payment loan_amount annual_rate term_years),
    interest_paid loan_amount (monthly_rate annual_rate) (monthly_payment loan_amount annual_rate term_years),
    principal_paid loan_amount (monthly_rate annual_rate) (monthly_payment loan_amount annual_rate term_years)⟩

end MortCalc

namespace BuyVsRent

/-- Filing status (src/main.py line 45 keyword `filing_status="individual"`;
line 118 compares against the string `"individual"`). -/
inductive Filing where
  | individual
  | joint
deriving DecidableEq

/-- The keyword parameters of `calculate_buy_vs_rent` (src/main.py lines
27-60), in source order.  Monetary and percentage inputs are floats in the
source, modelled as `ℝ`; `years` and `mortgage_term` are whole-year counts. -/
structure Params where
  home_price : ℝ
  monthly_rent : ℝ
  years : ℕ
  down_payment_pct : ℝ
  mortgage_rate : ℝ
  mortgage_term : ℕ
  pmi_rate : ℝ
  home_appreciation : ℝ
  rent_appreciation : ℝ
  investment_return : ℝ
  inflation : ℝ
  property_tax_rate : ℝ
  marginal_tax_rate : ℝ
  filing_status : Filing
  other_itemized_deductions : ℝ
  buying_closing_cost_pct : ℝ
  selling_closing_cost_pct : ℝ
  maintenance_pct : ℝ
  homeowners_insurance_pct : ℝ
  extra_utilities : ℝ
  hoa_fees : ℝ
  hoa_tax_deductible_pct : ℝ
  security_deposit_months : ℝ
  rental_broker_fee_pct : ℝ
  renters_insurance_pct : ℝ

noncomputable section

open Classical

/-- src/main.py line 66: `down_payment = home_price * (down_payment_pct / 100)`. -/
def down_payment (p : Params) : ℝ := p.home_price * (p.down_payment_pct / 100)

/-- src/main.py line 78: `loan_amount = home_price - down_payment`. -/
def loan_amount (p : Params) : ℝ := p.home_price - down_payment p

/-- src/main.py line 79: `buying_closing_costs = home_price * (buying_closing_cost_pct / 100)`. -/
def buying_closing_costs (p : Params) : ℝ := p.home_price * (p.buying_closing_cost_pct / 100)

/-- src/main.py line 80: `initial_buy_costs = down_payment + buying_closing_costs`. -/
def initial_buy_costs (p : Params) : ℝ := down_payment p + buying_closing_costs p

/-- src/main.py line 83 (after the line 67 percent conversion):
`monthly_rate = (mortgage_rate / 100) / 12`. -/
def monthly_rate (p : Params) : ℝ := p.mortgage_rate / 100 / 12

/-- src/main.py line 84: `n_payments = mortgage_term * 12`. -/
def n_payments (p : Params) : ℕ := p.mortgage_term * 12

/-- src/main.py lines 85-87: the annuity formula.  At `mortgage_rate = 0`
the Python float division raises `ZeroDivisionError`; in `ℝ` the convention
`x / 0 = 0` applies, so theorems about this function carry a positive-rate
hypothesis where the distinction matters. -/
def monthly_payment (p : Params) : ℝ :=
  loan_amount p * (monthly_rate p * (1 + monthly_rate p) ^ n_payments p)
    / ((1 + monthly_rate p) ^ n_payments p - 1)

/-- src/main.py lines 90-97: `balance[0] = loan_amount`;
`interest = balance[i-1] * monthly_rate`; `principal = monthly_payment - interest`;
`balance[i] = balance[i-1] - principal`.  The loop runs to `years*12`
(len(months)-1) with no clamping of any kind. -/
def balance (p : Params) : ℕ → ℝ
  | 0 => loan_amount p
  | i + 1 => balance p i - (monthly_payment p - balance p i * monthly_rate p)

/-- src/main.py line 98: `interest_paid[i] = interest_paid[i-1] + interest`
with `interest_paid[0] = 0`. -/
def interest_paid (p : Params) : ℕ → ℝ
  | 0 => 0
  | i + 1 => interest_paid p i + balance p i * monthly_rate p

/-- src/main.py lines 100-105: PMI is the zero series unless
`down_payment_pct < 20`, in which case period `t` charges
`balance[t] * (pmi_rate/100/12)` while `balance[t]/home_price > 0.8`
(np.where, re-evaluated at every period), else zero. -/
def pmi_payments (p : Params) (t : ℕ) : ℝ :=
  if p.down_payment_pct < 20 then
    (if balance p t / p.home_price > 0.8 then balance p t * (p.pmi_rate / 100 / 12) else 0)
  else 0

/-- src/main.py line 108: `home_values = home_price * (1+home_appreciation)**(months/12)`
(fractional-year real exponent). -/
def home_values (p : Params) (t : ℕ) : ℝ :=
  p.home_price * (1 + p.home_appreciation / 100) ^ ((t : ℝ) / 12)

/-- src/main.py line 109. -/
def property_tax (p : Params) (t : ℕ) : ℝ := home_values p t * (p.property_tax_rate / 100 / 12)

/-- src/main.py line 110. -/
def homeowners_insurance (p : Params) (t : ℕ) : ℝ :=
  home_values p t * (p.homeowners_insurance_pct / 100 / 12)

/-- src/main.py line 113. -/
def maintenance (p : Params) (t : ℕ) : ℝ := home_values p t * (p.maintenance_pct / 100 / 12)

/-- src/main.py line 114: `utilities = extra_utilities * (1+inflation)**(months/12)`. -/
def utilities (p : Params) (t : ℕ) : ℝ :=
  p.extra_utilities * (1 + p.inflation / 100) ^ ((t : ℝ) / 12)

/-- src/main.py line 115: `hoa = hoa_fees * np.ones(len(months))`. -/
def hoa (p : Params) (_t : ℕ) : ℝ := p.hoa_fees

/-- np.cumsum: entry `t` is the inclusive sum of entries `0..t`. -/
def cumsum (f : ℕ → ℝ) (t : ℕ) : ℝ := ∑ k ∈ Finset.range (t + 1), f k

/-- src/main.py line 118: `13850 if filing_status == "individual" else 27700`. -/
def standard_deduction (p : Params) : ℝ :=
  if p.filing_status = Filing.individual then 13850 else 27700

/-- src/main.py lines 119-122: note the `hoa` term is the per-period array
entry scaled by the deductible share, not a cumulative sum. -/
def itemized_deductions (p : Params) (t : ℕ) : ℝ :=
  interest_paid p t + cumsum (property_tax p) t + hoa p t * (p.hoa_tax_deductible_pct / 100)
    + p.other_itemized_deductions

/-- src/main.py line 123: `np.maximum(0, itemized - standard) * (marginal_tax_rate/100)`. -/
def tax_savings (p : Params) (t : ℕ) : ℝ :=
  max 0 (itemized_deductions p t - standard_deduction p) * (p.marginal_tax_rate / 100)

/-- src/main.py line 127. -/
def security_deposit (p : Params) : ℝ := p.monthly_rent * p.security_deposit_months

/-- src/main.py line 128. -/
def broker_fee (p : Params) : ℝ := p.monthly_rent * 12 * (p.rental_broker_fee_pct / 100)

/-- src/main.py line 129. -/
def initial_rent_costs (p : Params) : ℝ := security_deposit p + broker_fee p

/-- src/main.py line 132: `monthly_rents = monthly_rent * (1+rent_appreciation)**(months/12)`. -/
def monthly_rents (p : Params) (t : ℕ) : ℝ :=
  p.monthly_rent * (1 + p.rent_appreciation / 100) ^ ((t : ℝ) / 12)

/-- src/main.py line 133: `renters_insurance = monthly_rent * 12 * (renters_insurance_pct / 100 / 12)`.
This is a Python scalar (one number), not a per-period array. -/
def renters_insurance (p : Params) : ℝ :=
  p.monthly_rent * 12 * (p.renters_insurance_pct / 100 / 12)

/-- src/main.py line 136: `investment_base = initial_buy_costs - initial_rent_costs`. -/
def investment_base (p : Params) : ℝ := initial_buy_costs p - initial_rent_costs p

/-- src/main.py lines 137-145: elementwise over the month axis; the scalars
`monthly_payment` and `renters_insurance` broadcast over every period. -/
def monthly_investment (p : Params) (t : ℕ) : ℝ :=
  monthly_payment p + pmi_payments p t + property_tax p t + homeowners_insurance p t
    + maintenance p t + utilities p t + hoa p t - monthly_rents p t - renters_insurance p

/-- src/main.py lines 147-152: `investment_value[0] = investment_base`;
`investment_value[i] = investment_value[i-1]*(1 + investment_return/12) + monthly_investment[i-1]`
(note the contribution added at step `i` is the entry of `monthly_investment`
at index `i-1`, and `investment_return` was divided by 100 at line 70). -/
def investment_value (p : Params) : ℕ → ℝ
  | 0 => investment_base p
  | i + 1 => investment_value p i * (1 + p.investment_return / 100 / 12) + monthly_investment p i

/-- src/main.py line 155: `final_selling_costs = home_values * (selling_closing_cost_pct / 100)`. -/
def final_selling_costs (p : Params) (t : ℕ) : ℝ :=
  home_values p t * (p.selling_closing_cost_pct / 100)

/-- src/main.py lines 158-167. -/
def buying_net_worth (p : Params) (t : ℕ) : ℝ :=
  home_values p t - balance p t - cumsum (pmi_payments p) t - cumsum (property_tax p) t
    - cumsum (homeowners_insurance p) t - cumsum (maintenance p) t - cumsum (utilities p) t
    - cumsum (hoa p) t + tax_savings p t - final_selling_costs p t

/-- src/main.py lines 169-171: `renting_net_worth = investment_value -
np.cumsum(monthly_rents) - np.cumsum(renters_insurance)`.  Since
`renters_insurance` is a Python scalar, `np.cumsum` of it is the one-element
array `[renters_insurance]`, which broadcasts over the month axis: every
entry has the constant subtracted exactly once (no accumulation). -/
def renting_net_worth (p : Params) (t : ℕ) : ℝ :=
  investment_value p t - cumsum (monthly_rents p) t - renters_insurance p

/-- The plotly figure returned by `calculate_buy_vs_rent` (src/main.py lines
173-220), reduced to its data content: the x axis of dates and the three
y series.  A date is modelled as a month count; src/main.py line 174 builds
`dates = [pd.Timestamp.now() + pd.DateOffset(months=m) for m in months]`,
so the axis depends on the ambient clock `now`. -/
structure Figure where
  dates : ℕ → ℤ
  buying_net_worth : ℕ → ℝ
  renting_net_worth : ℕ → ℝ
  advantage : ℕ → ℝ

/-- src/main.py lines 27-220, `calculate_buy_vs_rent`: the returned figure,
as a function of the parameters and of the ambient current time `now`
(read via `pd.Timestamp.now()` at line 174).  The three traces are
`buying_net_worth`, `renting_net_worth` and their difference (lines 179-201). -/
def calculate_buy_vs_rent (p : Params) (now : ℤ) : Figure :=
  ⟨fun m => now + m, fun t => buying_net_worth p t, fun t => renting_net_worth p t,
    fun t => buying_net_worth p t - renting_net_worth p t⟩

/-- Spec-side definition for claim C4 (spec §4.3 step 4), following the
spec's words: the net contribution of period `i ≥ 1` is the total ownership
outflow of that period (mortgage payment + PMI + property tax + insurance +
maintenance + utilities + HOA) minus the total renting outflow (rent +
renters insurance).  Period `i` runs from month `i-1` to month `i` and is
billed on its opening state, so its cost-series entries are the ones at
index `i-1` (for example its PMI is charged on `balance[i-1]`, just as its
mortgage interest is `balance[i-1] * rate`). -/
def net_contribution_spec (p : Params) (i : ℕ) : ℝ :=
  (monthly_payment p + pmi_payments p (i - 1) + property_tax p (i - 1)
      + homeowners_insurance p (i - 1) + maintenance p (i - 1) + utilities p (i - 1)
      + hoa p (i - 1))
    - (monthly_rents p (i - 1) + renters_insurance p)

/-- Replace the `buying_closing_cost_pct` input, keeping every other input
fixed (used to state claim C9).  Fields are listed in the order of the
`Params` structure. -/
def set_buying_closing_cost_pct (p : Params) (c : ℝ) : Params :=
  ⟨p.home_price, p.monthly_rent, p.years, p.down_payment_pct, p.mortgage_rate,
    p.mortgage_term, p.pmi_rate, p.home_appreciation, p.rent_appreciation,
    p.investment_return, p.inflation, p.property_tax_rate, p.marginal_tax_rate,
    p.filing_status, p.other_itemized_deductions, c, p.selling_closing_cost_pct,
    p.maintenance_pct, p.homeowners_insurance_pct, p.extra_utilities, p.hoa_fees,
    p.hoa_tax_deductible_pct, p.security_deposit_months, p.rental_broker_fee_pct,
    p.renters_insurance_pct⟩

/-- A concrete valid input with the projection horizon beyond the mortgage
term (used for claim C1): home_price 1000, monthly_rent 10, years 2,
down_payment_pct 0, mortgage_rate 12, mortgage_term 1, pmi_rate 0.5, all
growth and cost rates 0, filing individual, security_deposit_months 1.
Its amortization loop runs 24 periods while the loan is paid off after 12. -/
def pHorizon : Params :=
  ⟨1000, 10, 2, 0, 12, 1, 0.5, 0, 0, 0, 0, 0, 0, Filing.individual,
    0, 0, 0, 0, 0, 0, 0, 0, 1, 0, 0⟩

/-- The default inputs of `calculate_buy_vs_rent` (src/main.py lines 29-59). -/
def defaults : Params :=
  ⟨375000, 2000, 30, 20, 6.5, 30, 0.5, 3, 3, 7, 2, 1.5, 25, Filing.individual,
    0, 3, 6, 1, 0.5, 200, 0, 0, 1, 0, 0.5⟩

end

end BuyVsRent

open Classical

namespace MortCalc

/-- Helper: the balance and the cumulative principal reconcile with the loan
amount at every period (each period moves `month_principal` from the balance
into `principal_paid`, src/main.py lines 249-250). -/
theorem balance_add_principal (loan_amount r payment : ℚ) (n : ℕ) :
    balance loan_amount r payment n + principal_paid loan_amount r payment n = loan_amount := by
  induction n with
  | zero => simp [balance, principal_paid]
  | succ i ih =>
    simp only [balance, principal_paid]
    linarith [ih]

/-- Helper: cumulative interest plus cumulative principal equals the number
of periods times the payment (src/main.py lines 246-249: every period books
`month_interest + month_principal = monthly_payment`). -/
theorem interest_add_principal (loan_amount r payment : ℚ) (n : ℕ) :
    interest_paid loan_amount r payment n + principal_paid loan_amount r payment n
      = (n : ℚ) * payment := by
  induction n with
  | zero => simp [interest_paid, principal_paid]
  | succ i ih =>
    simp only [interest_paid, principal_paid]
    push_cast
    linarith [ih]

/-- Helper: for a negative annual rate above -2400 the monthly growth factor
lies strictly inside (-1, 1), so the annuity denominator
`(1+monthly_rate)^n_payments - 1` is nonzero for any positive term. -/
theorem denom_ne_zero_of_neg_rate (annual_rate : ℚ) (term_years : ℤ)
    (h1 : -2400 < annual_rate) (h2 : annual_rate < 0) (h3 : 1 ≤ term_years) :
    (1 + monthly_rate annual_rate) ^ n_payments term_years - 1 ≠ 0 := by
  have hrr : monthly_rate annual_rate = annual_rate / 1200 := by
    unfold monthly_rate; ring
  have hb0 : -1 < 1 + monthly_rate annual_rate := by rw [hrr]; linarith
  have hb1 : 1 + monthly_rate annual_rate < 1 := by rw [hrr]; linarith
  have habs : |1 + monthly_rate annual_rate| < 1 := abs_lt.mpr ⟨hb0, hb1⟩
  have hn : 0 < n_payments term_years := by
    unfold n_payments
    have : (1 : ℤ) * 12 ≤ term_years * 12 :=
      mul_le_mul_of_nonneg_right h3 (by norm_num)
    omega
  obtain ⟨m, hm⟩ : ∃ m : ℕ, n_payments term_years = (m : ℤ) :=
    ⟨(n_payments term_years).toNat, (Int.toNat_of_nonneg hn.le).symm⟩
  have hm0 : m ≠ 0 := by omega
  rw [hm, zpow_natCast]
  have hlt : (1 + monthly_rate annual_rate) ^ m < 1 :=
    lt_of_le_of_lt (le_abs_self _) (by rw [abs_pow]; exact pow_lt_one₀ (abs_nonneg _) habs hm0)
  exact sub_ne_zero.mpr hlt.ne

end MortCalc

/-- C2 (code bug): the spec requires `annual_rate = 0` to be special-cased to
`monthly_payment = loan_amount / n_payments` with zero cumulative interest,
but `calculate_mortgage_details` (src/main.py lines 227-233) has no special
case: at `annual_rate = 0` the annuity denominator `(1+0)**360 - 1` is
exactly `0.0` and the Python float division raises `ZeroDivisionError`
(modelled as `none`), producing no payment and no schedule. -/
theorem C2_zero_rate_divides_by_zero :
    MortCalc.calculate_mortgage_details 300000 0 30 = none := by
  norm_num [MortCalc.calculate_mortgage_details, MortCalc.monthly_rate, MortCalc.n_payments]

/-- C3 (amended): for every period `n` of the schedule produced from
`(loan_amount, annual_rate, term_years)`, the reconciliations that actually
hold are `remaining_balance[n] + cumulative_principal_paid[n] = loan_amount`
and `cumulative_interest_paid[n] + cumulative_principal_paid[n]
= n * monthly_payment` (principal+interest = payment, so the schedule is
self-consistent).  The identity written in the claim,
`cumulative_interest_paid[n] + remaining_balance[n] = loan_amount +
cumulative_principal_paid[n]`, is false (see the counterexample). -/
theorem C3_schedule_reconciliation (loan_amount annual_rate : ℚ) (term_years : ℤ) (n : ℕ)
    (_hn : (n : ℤ) ≤ MortCalc.n_payments term_years) :
    MortCalc.balance loan_amount (MortCalc.monthly_rate annual_rate)
        (MortCalc.monthly_payment loan_amount annual_rate term_years) n
      + MortCalc.principal_paid loan_amount (MortCalc.monthly_rate annual_rate)
        (MortCalc.monthly_payment loan_amount annual_rate term_years) n = loan_amount
    ∧ MortCalc.interest_paid loan_amount (MortCalc.monthly_rate annual_rate)
        (MortCalc.monthly_payment loan_amount annual_rate term_years) n
      + MortCalc.principal_paid loan_amount (MortCalc.monthly_rate annual_rate)
        (MortCalc.monthly_payment loan_amount annual_rate term_years) n
      = (n : ℚ) * MortCalc.monthly_payment loan_amount annual_rate term_years :=
  ⟨MortCalc.balance_add_principal loan_amount (MortCalc.monthly_rate annual_rate)
      (MortCalc.monthly_payment loan_amount annual_rate term_years) n,
    MortCalc.interest_add_principal loan_amount (MortCalc.monthly_rate annual_rate)
      (MortCalc.monthly_payment loan_amount annual_rate term_years) n⟩

/-- Witness for C3 at loan_amount 1200, annual_rate 12, term 1 year, n = 1. -/
theorem C3_witness :
    ((1 : ℕ) : ℤ) ≤ MortCalc.n_payments 1
    ∧ (MortCalc.balance 1200 (MortCalc.monthly_rate 12)
          (MortCalc.monthly_payment 1200 12 1) 1
        + MortCalc.principal_paid 1200 (MortCalc.monthly_rate 12)
          (MortCalc.monthly_payment 1200 12 1) 1 = 1200
      ∧ MortCalc.interest_paid 1200 (MortCalc.monthly_rate 12)
          (MortCalc.monthly_payment 1200 12 1) 1
        + MortCalc.principal_paid 1200 (MortCalc.monthly_rate 12)
          (MortCalc.monthly_payment 1200 12 1) 1
        = ((1 : ℕ) : ℚ) * MortCalc.monthly_payment 1200 12 1) :=
  ⟨by norm_num [MortCalc.n_payments],
    C3_schedule_reconciliation 1200 12 1 1 (by norm_num [MortCalc.n_payments])⟩

/-- Counterexample for C3 as stated: at loan_amount 1200, annual_rate 12,
term 1 year, period 1, the claimed identity `cumulative_interest_paid[1] +
remaining_balance[1] = loan_amount + cumulative_principal_paid[1]` fails
(the left side is about 1117.38, the right about 1294.62; it would require
`month_interest = 2 * month_principal`). -/
theorem C3_counterexample :
    MortCalc.interest_paid 1200 (MortCalc.monthly_rate 12)
        (MortCalc.monthly_payment 1200 12 1) 1
      + MortCalc.balance 1200 (MortCalc.monthly_rate 12)
        (MortCalc.monthly_payment 1200 12 1) 1
    ≠ 1200 + MortCalc.principal_paid 1200 (MortCalc.monthly_rate 12)
        (MortCalc.monthly_payment 1200 12 1) 1 := by
  norm_num [MortCalc.interest_paid, MortCalc.balance, MortCalc.principal_paid,
    MortCalc.monthly_payment, MortCalc.monthly_rate, MortCalc.n_payments]

/-- C5 (amended): `calculate_mortgage_details` performs no input validation
at all (src/main.py lines 222-258 contain no check and the repository
defines no `InvalidTermError`).  What actually happens: at `term_years = 0`
the annuity denominator `(1+r)^0 - 1 = 0` makes the float division crash
with `ZeroDivisionError` (modelled as `none`), and for any negative
`annual_rate` in (-2400, 0) with a positive term the function happily
computes a full schedule and returns it. -/
theorem C5_no_validation :
    (∀ loan_amount annual_rate : ℚ,
        MortCalc.calculate_mortgage_details loan_amount annual_rate 0 = none)
    ∧ ∀ (loan_amount annual_rate : ℚ) (term_years : ℤ), -2400 < annual_rate →
        annual_rate < 0 → 1 ≤ term_years →
        (MortCalc.calculate_mortgage_details loan_amount annual_rate term_years).isSome = true := by
  constructor
  · intro loan_amount annual_rate
    unfold MortCalc.calculate_mortgage_details
    rw [if_pos]
    show (1 + MortCalc.monthly_rate annual_rate) ^ MortCalc.n_payments 0 - 1 = 0
    norm_num [MortCalc.n_payments]
  · intro loan_amount annual_rate term_years h1 h2 h3
    unfold MortCalc.calculate_mortgage_details
    rw [if_neg (MortCalc.denom_ne_zero_of_neg_rate annual_rate term_years h1 h2 h3)]
    rfl

/-- Witness for C5: term 0 crashes (none); rate -1 with term 30 succeeds. -/
theorem C5_witness :
    MortCalc.calculate_mortgage_details 5 7 0 = none
    ∧ ((-2400 : ℚ) < -1 ∧ (-1 : ℚ) < 0 ∧ (1 : ℤ) ≤ 30)
    ∧ (MortCalc.calculate_mortgage_details 100000 (-1) 30).isSome = true :=
  ⟨C5_no_validation.1 5 7, ⟨by norm_num, by norm_num, by norm_num⟩,
    C5_no_validation.2 100000 (-1) 30 (by norm_num) (by norm_num) (by norm_num)⟩

/-- Counterexample for C5 as stated: the claim says every call with
`annual_rate < 0` fails with `InvalidTermError` before any computation, but
at loan_amount 100000, annual_rate -1, term 30 years the code raises
nothing and returns a complete schedule. -/
theorem C5_counterexample :
    (MortCalc.calculate_mortgage_details 100000 (-1) 30).isSome = true := by
  unfold MortCalc.calculate_mortgage_details
  rw [if_neg (MortCalc.denom_ne_zero_of_neg_rate (-1) 30 (by norm_num) (by norm_num)
    (by norm_num))]
  rfl

/-- C7 (amended): for loan_amount 300000, annual_rate 5, term 30 years the
code gives monthly payment 1610.4648... (between 1610.46 and 1610.47, so
"payment is about 1610.46" is right), remaining balance after period 1 of
299639.5351... (between 299639.53 and 299639.54, so about 299639.54, not the
claimed 299639.79), and cumulative interest after period 1 of exactly 1250
(= 300000 * 0.05/12, not the claimed 1250.25). -/
theorem C7_example_values :
    (161046 / 100 : ℚ) < MortCalc.monthly_payment 300000 5 30
    ∧ MortCalc.monthly_payment 300000 5 30 < 161047 / 100
    ∧ MortCalc.interest_paid 300000 (MortCalc.monthly_rate 5)
        (MortCalc.monthly_payment 300000 5 30) 1 = 1250
    ∧ (29963953 / 100 : ℚ) < MortCalc.balance 300000 (MortCalc.monthly_rate 5)
        (MortCalc.monthly_payment 300000 5 30) 1
    ∧ MortCalc.balance 300000 (MortCalc.monthly_rate 5)
        (MortCalc.monthly_payment 300000 5 30) 1 < 29963954 / 100 := by
  refine ⟨?_, ?_, ?_, ?_, ?_⟩ <;>
    norm_num [MortCalc.interest_paid, MortCalc.balance, MortCalc.monthly_payment,
      MortCalc.monthly_rate, MortCalc.n_payments]

/-- Counterexample for C7 as stated: reading "approximately" as agreement to
within one cent (the claim quotes cent precision), both the period-1 balance
(claimed 299639.79, actual 299639.5351...) and the period-1 cumulative
interest (claimed 1250.25, actual exactly 1250) are off by about 0.25: the
claimed value exceeds the computed one by more than 0.01 in each case. -/
theorem C7_counterexample :
    (125025 / 100 : ℚ) - MortCalc.interest_paid 300000 (MortCalc.monthly_rate 5)
        (MortCalc.monthly_payment 300000 5 30) 1 > 1 / 100
    ∧ (29963979 / 100 : ℚ) - MortCalc.balance 300000 (MortCalc.monthly_rate 5)
        (MortCalc.monthly_payment 300000 5 30) 1 > 1 / 100 := by
  constructor <;>
    norm_num [MortCalc.interest_paid, MortCalc.balance, MortCalc.monthly_payment,
      MortCalc.monthly_rate, MortCalc.n_payments]

namespace BuyVsRent

/-- Helper: one amortization step of `calculate_buy_vs_rent` in closed
multiplicative form. -/
theorem balance_step (p : Params) (i : ℕ) :
    balance p (i + 1) = balance p i * (1 + monthly_rate p) - monthly_payment p := by
  simp only [balance]
  ring

/-- Helper: closed form of the unclamped balance recurrence. -/
theorem balance_closed (p : Params) (hr : monthly_rate p ≠ 0) (i : ℕ) :
    balance p i = loan_amount p * (1 + monthly_rate p) ^ i
      - monthly_payment p * (((1 + monthly_rate p) ^ i - 1) / monthly_rate p) := by
  induction i with
  | zero => simp [balance]
  | succ n ih =>
    rw [balance_step, ih]
    field_simp
    ring

/-- Helper: with the annuity payment, the balance is exactly zero after
`n_payments` periods. -/
theorem balance_at_n_payments (p : Params) (hr : monthly_rate p ≠ 0)
    (hA : (1 + monthly_rate p) ^ n_payments p - 1 ≠ 0) :
    balance p (n_payments p) = 0 := by
  rw [balance_closed p hr, monthly_payment]
  field_simp
  ring

/-- Helper: the period right after payoff drives the balance to minus one
full payment, because the loop keeps subtracting `monthly_payment - interest`
with no clamp (src/main.py lines 94-97). -/
theorem balance_after_payoff (p : Params) (hr : monthly_rate p ≠ 0)
    (hA : (1 + monthly_rate p) ^ n_payments p - 1 ≠ 0) :
    balance p (n_payments p + 1) = -(monthly_payment p) := by
  rw [balance_step, balance_at_n_payments p hr hA]
  ring

end BuyVsRent

/-- C1 (code bug): the claim (and spec §4.1/§8) say the remaining balance is
non-negative, pinned at zero after payoff, with zero interest and principal
in post-payoff periods when `horizon_years` exceeds `mortgage_term_years`.
The amortization loop of `calculate_buy_vs_rent` (src/main.py lines 90-98)
runs over the whole `years*12` horizon with no clamp, so on the valid input
`pHorizon` (mortgage_term 1 year, horizon 2 years, rate 12) the balance
starts at the loan amount as claimed but goes strictly negative at period 13
(one month past payoff): `balance[13] = -monthly_payment < 0`, with negative
interest accruing from then on. -/
theorem C1_no_zero_clamp :
    BuyVsRent.balance BuyVsRent.pHorizon 0 = BuyVsRent.loan_amount BuyVsRent.pHorizon
    ∧ BuyVsRent.balance BuyVsRent.pHorizon 13 < 0 := by
  constructor
  · rfl
  · have hr : BuyVsRent.monthly_rate BuyVsRent.pHorizon = 1 / 100 := by
      norm_num [BuyVsRent.monthly_rate, BuyVsRent.pHorizon]
    have hn : BuyVsRent.n_payments BuyVsRent.pHorizon = 12 := by
      norm_num [BuyVsRent.n_payments, BuyVsRent.pHorizon]
    have hA1 : (1 : ℝ) <
        (1 + BuyVsRent.monthly_rate BuyVsRent.pHorizon) ^ BuyVsRent.n_payments BuyVsRent.pHorizon := by
      rw [hr, hn]
      norm_num
    have hA : (1 + BuyVsRent.monthly_rate BuyVsRent.pHorizon) ^ BuyVsRent.n_payments BuyVsRent.pHorizon
        - 1 ≠ 0 := sub_ne_zero.mpr hA1.ne'
    have hloan : (0 : ℝ) < BuyVsRent.loan_amount BuyVsRent.pHorizon := by
      norm_num [BuyVsRent.loan_amount, BuyVsRent.down_payment, BuyVsRent.pHorizon]
    have hpay : 0 < BuyVsRent.monthly_payment BuyVsRent.pHorizon := by
      rw [BuyVsRent.monthly_payment]
      apply div_pos
      · apply mul_pos hloan
        apply mul_pos
        · rw [hr]; norm_num
        · linarith
      · linarith
    have h13 : BuyVsRent.balance BuyVsRent.pHorizon 13 =
        -(BuyVsRent.monthly_payment BuyVsRent.pHorizon) := by
      have := BuyVsRent.balance_after_payoff BuyVsRent.pHorizon (by rw [hr]; norm_num) hA
      rw [hn] at this
      exact this
    rw [h13]
    linarith

/-- C4 (confirmed): the counterfactual investment path starts at
`initial_buy_costs - initial_rent_costs` and satisfies, for every period
`i+1`, `investment_value[i+1] = investment_value[i] * (1 + investment_return/12)
+ net_contribution`, where the net contribution is the total ownership
outflow of the period (mortgage payment + PMI + property tax + insurance +
maintenance + utilities + HOA, billed on the period's opening month index)
minus the total renting outflow (rent + renters insurance), growth applied
before the contribution (src/main.py lines 136-152).  The recurrence is an
unconditional identity, so no floor is applied when the contribution is
negative. -/
theorem C4_investment_recurrence (p : BuyVsRent.Params) :
    BuyVsRent.investment_value p 0
        = BuyVsRent.initial_buy_costs p - BuyVsRent.initial_rent_costs p
    ∧ ∀ i : ℕ, BuyVsRent.investment_value p (i + 1)
        = BuyVsRent.investment_value p i * (1 + p.investment_return / 100 / 12)
          + BuyVsRent.net_contribution_spec p (i + 1) := by
  refine ⟨rfl, fun i => ?_⟩
  simp only [BuyVsRent.investment_value, BuyVsRent.monthly_investment,
    BuyVsRent.net_contribution_spec, Nat.add_sub_cancel]
  ring

/-- C6 (confirmed): per period `t`, the PMI charge is
`balance[t] * (pmi_rate/100/12)` exactly when `down_payment_pct < 20` and
`balance[t]/home_price > 0.8`, and zero otherwise (in particular zero for
every period when `down_payment_pct >= 20`); the condition is re-evaluated
at every period (src/main.py lines 100-105). -/
theorem C6_pmi_rule (p : BuyVsRent.Params) (t : ℕ) :
    BuyVsRent.pmi_payments p t =
      if p.down_payment_pct < 20 ∧ BuyVsRent.balance p t / p.home_price > 0.8 then
        BuyVsRent.balance p t * (p.pmi_rate / 100 / 12)
      else 0 := by
  by_cases h1 : p.down_payment_pct < 20 <;>
    by_cases h2 : BuyVsRent.balance p t / p.home_price > 0.8 <;>
      simp [BuyVsRent.pmi_payments, h1, h2]

/-- C8 (amended): with identical inputs the three numeric net-worth series
of the returned figure are identical across invocations (they are functions
of the `Params` alone), but the figure as a whole is not: its date axis is
built from the ambient current time (`pd.Timestamp.now()`, src/main.py line
174), so runs at different times disagree (see the counterexample). -/
theorem C8_deterministic_series (p : BuyVsRent.Params) (now here : ℤ) :
    (BuyVsRent.calculate_buy_vs_rent p now).buying_net_worth
        = (BuyVsRent.calculate_buy_vs_rent p here).buying_net_worth
    ∧ (BuyVsRent.calculate_buy_vs_rent p now).renting_net_worth
        = (BuyVsRent.calculate_buy_vs_rent p here).renting_net_worth
    ∧ (BuyVsRent.calculate_buy_vs_rent p now).advantage
        = (BuyVsRent.calculate_buy_vs_rent p here).advantage :=
  ⟨rfl, rfl, rfl⟩

/-- Counterexample for C8 as stated: the entire returned result is not a
function of the inputs alone.  Two invocations on the default inputs whose
ambient clocks differ by one month return different figures (the date axes
differ at index 0). -/
theorem C8_counterexample :
    BuyVsRent.calculate_buy_vs_rent BuyVsRent.defaults 0
      ≠ BuyVsRent.calculate_buy_vs_rent BuyVsRent.defaults 1 := by
  intro h
  have h2 := congrArg (fun f => f.dates 0) h
  simp [BuyVsRent.calculate_buy_vs_rent] at h2

namespace BuyVsRent

/-- Helper: the amortization balance does not read `buying_closing_cost_pct`. -/
theorem balance_set_bcc (p : Params) (c : ℝ) :
    balance (set_buying_closing_cost_pct p c) = balance p := by
  funext t
  induction t with
  | zero => rfl
  | succ n ih =>
    simp only [balance, ih]
    rfl

/-- Helper: cumulative interest does not read `buying_closing_cost_pct`. -/
theorem interest_paid_set_bcc (p : Params) (c : ℝ) :
    interest_paid (set_buying_closing_cost_pct p c) = interest_paid p := by
  funext t
  induction t with
  | zero => rfl
  | succ n ih =>
    simp only [interest_paid, ih, balance_set_bcc]
    rfl

/-- Helper: the PMI series does not read `buying_closing_cost_pct`. -/
theorem pmi_payments_set_bcc (p : Params) (c : ℝ) :
    pmi_payments (set_buying_closing_cost_pct p c) = pmi_payments p := by
  funext t
  simp only [pmi_payments, balance_set_bcc]
  rfl

/-- Helper: the whole buying-side net worth does not read
`buying_closing_cost_pct` (src/main.py lines 158-167 use home value, the
amortization balance, the recurring cost series, tax savings and selling
costs, none of which involve the buying closing costs). -/
theorem buying_net_worth_set_bcc (p : Params) (c : ℝ) (t : ℕ) :
    buying_net_worth (set_buying_closing_cost_pct p c) t = buying_net_worth p t := by
  simp only [buying_net_worth, tax_savings, itemized_deductions, balance_set_bcc,
    interest_paid_set_bcc, pmi_payments_set_bcc]
  rfl

end BuyVsRent

/-- C9 (confirmed): varying `buying_closing_cost_pct` while holding every
other input fixed leaves the whole `buying_net_worth` series unchanged, for
every period; the closing costs enter the projection only through
`initial_buy_costs` (= down payment + home_price * pct/100), and from there
only `investment_base` on the renting side (src/main.py lines 78-80, 136,
158-167). -/
theorem C9_closing_cost_invariance (p : BuyVsRent.Params) (c : ℝ) (d : ℝ) (t : ℕ) :
    BuyVsRent.buying_net_worth (BuyVsRent.set_buying_closing_cost_pct p c) t
      = BuyVsRent.buying_net_worth (BuyVsRent.set_buying_closing_cost_pct p d) t
    ∧ BuyVsRent.initial_buy_costs (BuyVsRent.set_buying_closing_cost_pct p c)
      = BuyVsRent.down_payment p + p.home_price * (c / 100) :=
  ⟨(BuyVsRent.buying_net_worth_set_bcc p c t).trans
      (BuyVsRent.buying_net_worth_set_bcc p d t).symm,
    rfl⟩

/-- C10 (code bug): the per-period renters-insurance charge is indeed the
constant `monthly_rent * renters_insurance_pct/100`, computed from the
initial annual rent base (src/main.py line 133) and never growing with rent
appreciation — that part of the claim holds and is the first conjunct.  But
`renting_net_worth` does not subtract the cumulative sum of this constant
series: `renters_insurance` is a Python scalar, so `np.cumsum` of it
(src/main.py line 171) is the one-element array `[renters_insurance]`,
which broadcasts so that each entry of the series has the constant
subtracted exactly once.  The second conjunct shows the single flat
subtraction, and the third shows that consecutive net-worth differences
contain no renters-insurance charge at all (an accumulating subtraction
would contribute an extra `-renters_insurance` per period). -/
theorem C10_renters_insurance_flat (p : BuyVsRent.Params) (t : ℕ) :
    BuyVsRent.renters_insurance p = p.monthly_rent * (p.renters_insurance_pct / 100)
    ∧ BuyVsRent.renting_net_worth p t
        = BuyVsRent.investment_value p t - BuyVsRent.cumsum (BuyVsRent.monthly_rents p) t
          - BuyVsRent.renters_insurance p
    ∧ BuyVsRent.renting_net_worth p (t + 1) - BuyVsRent.renting_net_worth p t
        = (BuyVsRent.investment_value p (t + 1) - BuyVsRent.investment_value p t)
          - BuyVsRent.monthly_rents p (t + 1) := by
  refine ⟨?_, rfl, ?_⟩
  · rw [BuyVsRent.renters_insurance]
    ring
  · simp only [BuyVsRent.renting_net_worth, BuyVsRent.cumsum, Finset.sum_range_succ]
    ring
